import Mathlib

/-!
Verification development for the `fetch_data.py` batch fetch-and-normalize
routine: a shallow embedding of its data model and control flow, followed by
theorems about the behaviour documented in the specification.

Modelling conventions:
* The external yfinance client is an oracle `Provider`: one call per
  (ticker, period, interval), returning either a raised exception
  (`Except.error` with the message text) or a list of bars (possibly empty).
* Numeric bar fields (Open/High/Low/Close/Volume) are carried as the
  provider-rendered strings, since the program passes them through unchanged.
* The file system is a map from path strings to file contents; directories
  (the idempotent `data_dir.mkdir`) are not modelled.
* Process termination is an `ExitStatus`; every abnormal path of the script
  (sys.exit(1), an unhandled KeyError, an unhandled JSONDecodeError) makes the
  interpreter exit with status 1.
-/

namespace FetchData

/-- Calendar timestamp carried by a provider bar (as rendered by strftime). -/
structure Timestamp where
  year : Nat
  month : Nat
  day : Nat
  hour : Nat
  minute : Nat
  second : Nat
deriving DecidableEq, Repr

/-- One OHLCV observation. The numeric fields are the provider-rendered
strings, passed through to the CSV without rounding or coercion. -/
structure Bar where
  ts : Timestamp
  Open : String
  High : String
  Low : String
  Close : String
  Volume : String
deriving DecidableEq, Repr

/-- The decimal digit character for `d < 10`. -/
def digitChar (d : Nat) : Char := Char.ofNat (48 + d)

/-- Decimal digits of `n`, most significant first (fuel-based recursion). -/
def natDigits : Nat → Nat → List Char
  | 0, _ => []
  | fuel + 1, n =>
    if n < 10 then [digitChar n] else natDigits fuel (n / 10) ++ [digitChar (n % 10)]

/-- Decimal rendering of a natural number. -/
def natRepr (n : Nat) : String := ⟨natDigits (n + 1) n⟩

/-- Zero-pad to two digits (strftime %m, %d, %H, %M, %S). -/
def pad2 (n : Nat) : String := if n < 10 then "0" ++ natRepr n else natRepr n

/-- Zero-pad to four digits (strftime %Y). -/
def pad4 (n : Nat) : String :=
  if n < 10 then "000" ++ natRepr n
  else if n < 100 then "00" ++ natRepr n
  else if n < 1000 then "0" ++ natRepr n
  else natRepr n

/-- strftime format %Y-%m-%d applied to a bar timestamp. -/
def fmtDate (t : Timestamp) : String := pad4 t.year ++ "-" ++ pad2 t.month ++ "-" ++ pad2 t.day

/-- strftime format %H:%M:%S applied to a bar timestamp. -/
def fmtTime (t : Timestamp) : String := pad2 t.hour ++ ":" ++ pad2 t.minute ++ ":" ++ pad2 t.second

/-- strftime format for the timestamp marker: %Y-%m-%d %H:%M:%S UTC. -/
def fmtUtcStamp (t : Timestamp) : String := fmtDate t ++ " " ++ fmtTime t ++ " UTC"

/-- Join lines the way pandas `to_csv` renders a frame: every line, the last
one included, is terminated by a newline character. -/
def joinLines : List String → String
  | [] => ""
  | l :: ls => l ++ "\n" ++ joinLines ls

/-- Header row written for hourly data. -/
def hourlyHeader : String := "Date,Time,Open,High,Low,Close,Volume"

/-- Header row written for daily data. -/
def dailyHeader : String := "Date,Open,High,Low,Close,Volume"

/-- One hourly CSV data row: Date,Time,Open,High,Low,Close,Volume. -/
def hourlyRow (b : Bar) : String :=
  fmtDate b.ts ++ "," ++ fmtTime b.ts ++ "," ++ b.Open ++ "," ++ b.High ++ ","
    ++ b.Low ++ "," ++ b.Close ++ "," ++ b.Volume

/-- One daily CSV data row: Date,Open,High,Low,Close,Volume (no Time). -/
def dailyRow (b : Bar) : String :=
  fmtDate b.ts ++ "," ++ b.Open ++ "," ++ b.High ++ ","
    ++ b.Low ++ "," ++ b.Close ++ "," ++ b.Volume

/-- Contents of the hourly CSV file for a bar series (`output_df.to_csv`,
`index=False`: header plus one row per bar, no index column). -/
def hourlyCsv (bars : List Bar) : String := joinLines (hourlyHeader :: bars.map hourlyRow)

/-- Contents of the daily CSV file for a bar series. -/
def dailyCsv (bars : List Bar) : String := joinLines (dailyHeader :: bars.map dailyRow)

/-- One entry of `config.json`'s "symbols" list: a required symbol name and an
optional provider ticker override. -/
structure ConfigEntry where
  symbol : String
  ticker : Option String
deriving DecidableEq, Repr

/-- The parsed `config.json` document. `none` marks an absent top-level key
(accessing it raises KeyError). -/
structure ConfigDoc where
  symbols : Option (List ConfigEntry)
  pairs : Option (List String)
deriving DecidableEq, Repr

/-- The state of `config.json` on disk when the run starts. -/
inductive ConfigFile where
  | absent
  | malformed
  | parsed (doc : ConfigDoc)
deriving DecidableEq, Repr

/-- Python-dict association list from symbol to provider ticker. -/
abbrev TickerMap := List (String × String)

/-- Python dict assignment `m[k] = v`: overwrite in place if the key exists,
append otherwise. -/
def dinsert (m : TickerMap) (k v : String) : TickerMap :=
  if m.any (fun p => p.1 == k) then m.map (fun p => if p.1 == k then (k, v) else p)
  else m ++ [(k, v)]

/-- Python dict lookup `m.get(k, d)`. -/
def dget (m : TickerMap) (k d : String) : String :=
  match m.find? (fun p => p.1 == k) with
  | some p => p.2
  | none => d

/-- `entry.get('ticker', symbol)`: the provider ticker an entry resolves to. -/
def resolvedTicker (e : ConfigEntry) : String := e.ticker.getD e.symbol

/-- `get_symbols_from_config`: extract the ordered symbol list and the ticker
map from the parsed config. Accessing the missing "symbols" key raises
KeyError (modelled as `Except.error "symbols"`). The map receives an entry
only when the resolved ticker differs from the symbol. -/
def get_symbols_from_config (config : ConfigDoc) : Except String (List String × TickerMap) :=
  match config.symbols with
  | none => .error "symbols"
  | some entries =>
    .ok (entries.foldl
      (fun acc entry =>
        (acc.1 ++ [entry.symbol],
         if resolvedTicker entry ≠ entry.symbol
         then dinsert acc.2 entry.symbol (resolvedTicker entry)
         else acc.2))
      ([], []))

/-- The market-data client: `yf.Ticker(t).history(period=p, interval=i)`,
returning the bar list or raising (error text). -/
abbrev Provider := String → String → String → Except String (List Bar)

/-- Observable state threaded through a run: file system plus output streams. -/
structure RunState where
  fs : String → Option String
  stderr : List String
  stdout : List String

/-- Append one diagnostic message (`print(..., file=sys.stderr)`). -/
def pushLog (st : RunState) (m : String) : RunState :=
  { st with stderr := st.stderr ++ [m] }

/-- Write (create or fully overwrite) one file. -/
def writeFile (st : RunState) (path content : String) : RunState :=
  { st with fs := fun q => if q = path then some content else st.fs q }

/-- Path of the hourly CSV: `data_dir / f"{symbol.lower()}_hourly.csv"`. -/
def hourlyPath (data_dir symbol : String) : String :=
  data_dir ++ "/" ++ symbol.toLower ++ "_hourly.csv"

/-- Path of the daily CSV: `data_dir / f"{symbol.lower()}.csv"`. -/
def dailyPath (data_dir symbol : String) : String :=
  data_dir ++ "/" ++ symbol.toLower ++ ".csv"

/-- `fetch_hourly`: one provider call for the trailing month at hourly
resolution; on empty result warn and skip the write, otherwise overwrite the
hourly CSV and log a confirmation. A provider exception propagates. -/
def fetch_hourly (provider : Provider) (symbol : String) (ticker_map : TickerMap)
    (data_dir : String) (st : RunState) : Except String RunState :=
  match provider (dget ticker_map symbol symbol) "1mo" "1h" with
  | .error e => .error e
  | .ok df =>
    if df.isEmpty then
      .ok (pushLog st ("WARNING: No hourly data returned for " ++ symbol))
    else
      .ok (pushLog (writeFile st (hourlyPath data_dir symbol) (hourlyCsv df))
        ("✓ " ++ symbol ++ " hourly: " ++ natRepr df.length ++ " bars → "
          ++ hourlyPath data_dir symbol))

/-- `fetch_daily`: one provider call for the maximum history at daily
resolution; same empty/success/raise behaviour as the hourly path. -/
def fetch_daily (provider : Provider) (symbol : String) (ticker_map : TickerMap)
    (data_dir : String) (st : RunState) : Except String RunState :=
  match provider (dget ticker_map symbol symbol) "max" "1d" with
  | .error e => .error e
  | .ok df =>
    if df.isEmpty then
      .ok (pushLog st ("WARNING: No daily data returned for " ++ symbol))
    else
      .ok (pushLog (writeFile st (dailyPath data_dir symbol) (dailyCsv df))
        ("✓ " ++ symbol ++ " daily: " ++ natRepr df.length ++ " bars → "
          ++ dailyPath data_dir symbol))

/-- How a run ends. All abnormal endings exit the interpreter with status 1. -/
inductive ExitStatus where
  | success
  | configMissing
  | jsonError
  | keyError (key : String)
  | fetchFailure (symbol : String) (err : String)
deriving DecidableEq, Repr

/-- The process exit code for each ending. -/
def exitCode : ExitStatus → Nat
  | .success => 0
  | .configMissing => 1
  | .jsonError => 1
  | .keyError _ => 1
  | .fetchFailure _ _ => 1

/-- The per-symbol error message printed before `sys.exit(1)`. -/
def fetchErrorMsg (symbol e : String) : String := "ERROR fetching " ++ symbol ++ ": " ++ e

/-- The `for symbol in symbols` loop of `main`: per symbol, print the progress
message, run the hourly then the daily fetch; the first raised exception
prints the error message and ends the whole run with exit status 1. -/
def mainLoop (provider : Provider) (ticker_map : TickerMap) (data_dir : String) :
    List String → RunState → ExitStatus × RunState
  | [], st => (.success, st)
  | symbol :: rest, st =>
    match fetch_hourly provider symbol ticker_map data_dir
        (pushLog st ("Fetching " ++ symbol ++ "...")) with
    | .error e =>
      (.fetchFailure symbol e,
       pushLog (pushLog st ("Fetching " ++ symbol ++ "...")) (fetchErrorMsg symbol e))
    | .ok st2 =>
      match fetch_daily provider symbol ticker_map data_dir st2 with
      | .error e => (.fetchFailure symbol e, pushLog st2 (fetchErrorMsg symbol e))
      | .ok st3 => mainLoop provider ticker_map data_dir rest st3

/-- `load_config`: a missing file prints an error and exits 1; malformed JSON
raises an unhandled JSONDecodeError (interpreter exit 1). -/
def load_config : ConfigFile → Except (ExitStatus × List String) ConfigDoc
  | .absent => .error (.configMissing, ["ERROR: config.json not found"])
  | .malformed => .error (.jsonError, ["Traceback (most recent call last): json.decoder.JSONDecodeError"])
  | .parsed doc => .ok doc

/-- Path of the timestamp marker file. -/
def lastUpdatedPath : String := "data/last_updated.txt"

/-- The state `main` holds when the symbol loop starts: the starting file
system plus the "Loaded config" diagnostic. -/
def initState (symbols pairs : List String) (fs0 : String → Option String) : RunState :=
  { fs := fs0,
    stderr := ["Loaded config: " ++ natRepr symbols.length ++ " symbols, "
      ++ natRepr pairs.length ++ " pairs"],
    stdout := [] }

/-- The observable outcome of one whole run. -/
structure RunResult where
  status : ExitStatus
  fs : String → Option String
  stderr : List String
  stdout : List String

/-- `main`: load the config, resolve symbols, report the diagnostic count
(raising KeyError when "pairs" is missing), run the symbol loop, and on full
success write the timestamp marker and the closing messages. -/
def main (configFile : ConfigFile) (provider : Provider) (now : Timestamp)
    (fs0 : String → Option String) : RunResult :=
  match load_config configFile with
  | .error (status, msgs) => { status := status, fs := fs0, stderr := msgs, stdout := [] }
  | .ok config =>
    match get_symbols_from_config config with
    | .error key =>
      { status := .keyError key, fs := fs0,
        stderr := ["Traceback (most recent call last): KeyError: " ++ key], stdout := [] }
    | .ok (symbols, ticker_map) =>
      match config.pairs with
      | none =>
        { status := .keyError "pairs", fs := fs0,
          stderr := ["Traceback (most recent call last): KeyError: pairs"], stdout := [] }
      | some pairs =>
        match mainLoop provider ticker_map "data" symbols (initState symbols pairs fs0) with
        | (.success, st) =>
          let st2 := writeFile (pushLog st "✓ All data fetched successfully")
            lastUpdatedPath (fmtUtcStamp now)
          let st3 := pushLog st2 ("✓ Updated timestamp: " ++ lastUpdatedPath)
          { status := .success, fs := st3.fs, stderr := st3.stderr, stdout := st3.stdout }
        | (status, st) =>
          { status := status, fs := st.fs, stderr := st.stderr, stdout := st.stdout }

/-- The first exception a symbol's pair of provider calls would raise, if any:
the hourly call's error, else the daily call's error, else none. -/
def symbolRaise (provider : Provider) (ticker_map : TickerMap) (symbol : String) :
    Option String :=
  match provider (dget ticker_map symbol symbol) "1mo" "1h" with
  | .error e => some e
  | .ok _ =>
    match provider (dget ticker_map symbol symbol) "max" "1d" with
    | .error e => some e
    | .ok _ => none

/-! Basic facts about the state operations. -/

@[simp] theorem pushLog_fs (st : RunState) (m : String) : (pushLog st m).fs = st.fs := rfl

@[simp] theorem pushLog_stdout (st : RunState) (m : String) : (pushLog st m).stdout = st.stdout := rfl

@[simp] theorem pushLog_stderr (st : RunState) (m : String) :
    (pushLog st m).stderr = st.stderr ++ [m] := rfl

@[simp] theorem writeFile_fs (st : RunState) (p c q : String) :
    (writeFile st p c).fs q = if q = p then some c else st.fs q := rfl

@[simp] theorem writeFile_stdout (st : RunState) (p c : String) :
    (writeFile st p c).stdout = st.stdout := rfl

@[simp] theorem writeFile_stderr (st : RunState) (p c : String) :
    (writeFile st p c).stderr = st.stderr := rfl

/-! The CSV paths never collide with the timestamp marker path. -/

theorem hourlyPath_ne_lastUpdated (s : String) : hourlyPath "data" s ≠ lastUpdatedPath := by
  intro h
  have hd : (hourlyPath "data" s).data = lastUpdatedPath.data := by rw [h]
  simp only [hourlyPath, lastUpdatedPath, String.data_append] at hd
  have h2 := congrArg List.getLast? hd
  rw [List.getLast?_append] at h2
  have hv : (("_hourly.csv" : String).data).getLast? = some 'v' := by decide
  rw [hv] at h2
  have ht : (("data/last_updated.txt" : String).data).getLast? = some 't' := by decide
  rw [ht] at h2
  simp [Option.or] at h2

theorem dailyPath_ne_lastUpdated (s : String) : dailyPath "data" s ≠ lastUpdatedPath := by
  intro h
  have hd : (dailyPath "data" s).data = lastUpdatedPath.data := by rw [h]
  simp only [dailyPath, lastUpdatedPath, String.data_append] at hd
  have h2 := congrArg List.getLast? hd
  rw [List.getLast?_append] at h2
  have hv : ((".csv" : String).data).getLast? = some 'v' := by decide
  rw [hv] at h2
  have ht : (("data/last_updated.txt" : String).data).getLast? = some 't' := by decide
  rw [ht] at h2
  simp [Option.or] at h2

/-! Decimal renderings contain no newline, so a CSV row is a single line. -/

theorem digitChar_ne_newline (d : Nat) (h : d < 10) : digitChar d ≠ '\n' := by
  interval_cases d <;> decide

theorem natDigits_ne_newline :
    ∀ fuel n : Nat, ∀ c ∈ natDigits fuel n, c ≠ '\n' := by
  intro fuel
  induction fuel with
  | zero => intro n c hc; simp [natDigits] at hc
  | succ fuel ih =>
    intro n c hc
    by_cases h : n < 10
    · simp [natDigits, h] at hc
      subst hc
      exact digitChar_ne_newline n h
    · simp [natDigits, h] at hc
      rcases hc with hc | hc
      · exact ih _ _ hc
      · subst hc
        exact digitChar_ne_newline _ (Nat.mod_lt _ (by norm_num))

theorem natRepr_no_newline (n : Nat) : '\n' ∉ (natRepr n).data := by
  intro hmem
  exact natDigits_ne_newline (n + 1) n _ hmem rfl

theorem no_nl_append {a b : String} (ha : '\n' ∉ a.data) (hb : '\n' ∉ b.data) :
    '\n' ∉ (a ++ b).data := by
  rw [String.data_append]
  simp only [List.mem_append]
  tauto

theorem pad2_no_newline (n : Nat) : '\n' ∉ (pad2 n).data := by
  unfold pad2
  split
  · exact no_nl_append (by decide) (natRepr_no_newline n)
  · exact natRepr_no_newline n

theorem pad4_no_newline (n : Nat) : '\n' ∉ (pad4 n).data := by
  unfold pad4
  split
  · exact no_nl_append (by decide) (natRepr_no_newline n)
  · split
    · exact no_nl_append (by decide) (natRepr_no_newline n)
    · split
      · exact no_nl_append (by decide) (natRepr_no_newline n)
      · exact natRepr_no_newline n

theorem fmtDate_no_newline (t : Timestamp) : '\n' ∉ (fmtDate t).data :=
  no_nl_append (no_nl_append (no_nl_append (no_nl_append
    (pad4_no_newline t.year) (by decide)) (pad2_no_newline t.month)) (by decide))
    (pad2_no_newline t.day)

theorem fmtTime_no_newline (t : Timestamp) : '\n' ∉ (fmtTime t).data :=
  no_nl_append (no_nl_append (no_nl_append (no_nl_append
    (pad2_no_newline t.hour) (by decide)) (pad2_no_newline t.minute)) (by decide))
    (pad2_no_newline t.second)

/-- Newline-freedom of the five pass-through numeric fields of a bar. -/
def barFieldsClean (b : Bar) : Prop :=
  '\n' ∉ b.Open.data ∧ '\n' ∉ b.High.data ∧ '\n' ∉ b.Low.data
    ∧ '\n' ∉ b.Close.data ∧ '\n' ∉ b.Volume.data

instance (b : Bar) : Decidable (barFieldsClean b) := by
  unfold barFieldsClean
  infer_instance

theorem hourlyRow_no_newline (b : Bar) (h : barFieldsClean b) :
    '\n' ∉ (hourlyRow b).data := by
  obtain ⟨h1, h2, h3, h4, h5⟩ := h
  unfold hourlyRow
  exact no_nl_append (no_nl_append (no_nl_append (no_nl_append (no_nl_append
    (no_nl_append (no_nl_append (no_nl_append (no_nl_append (no_nl_append
    (no_nl_append (no_nl_append (fmtDate_no_newline b.ts) (by decide))
    (fmtTime_no_newline b.ts)) (by decide)) h1) (by decide)) h2) (by decide)) h3)
    (by decide)) h4) (by decide)) h5

theorem dailyRow_no_newline (b : Bar) (h : barFieldsClean b) :
    '\n' ∉ (dailyRow b).data := by
  obtain ⟨h1, h2, h3, h4, h5⟩ := h
  unfold dailyRow
  exact no_nl_append (no_nl_append (no_nl_append (no_nl_append (no_nl_append
    (no_nl_append (no_nl_append (no_nl_append (no_nl_append (no_nl_append
    (fmtDate_no_newline b.ts) (by decide)) h1) (by decide)) h2) (by decide)) h3)
    (by decide)) h4) (by decide)) h5

/-- Each element of `L` being newline-free, the pandas-style rendering of `L`
holds exactly `L.length` newline characters, i.e. `L.length` lines. -/
theorem joinLines_count (L : List String) (h : ∀ l ∈ L, '\n' ∉ l.data) :
    ((joinLines L).data).count '\n' = L.length := by
  induction L with
  | nil => decide
  | cons l ls ih =>
    show (((l ++ "\n") ++ joinLines ls).data).count '\n' = ls.length + 1
    rw [String.data_append, String.data_append, List.count_append, List.count_append]
    have h1 : (l.data).count '\n' = 0 := List.count_eq_zero.mpr (h l (by simp))
    have h2 : ((("\n" : String)).data).count '\n' = 1 := by decide
    rw [h1, h2, ih (fun x hx => h x (by simp [hx]))]
    omega

/-! Characterization of the two fetch functions, one lemma per control path. -/

theorem fetch_hourly_raise {provider : Provider} {s : String} {tm : TickerMap}
    {e : String} (dd : String)
    (h : provider (dget tm s s) "1mo" "1h" = .error e) (st : RunState) :
    fetch_hourly provider s tm dd st = .error e := by
  unfold fetch_hourly
  rw [h]

theorem fetch_hourly_empty {provider : Provider} {s : String} {tm : TickerMap}
    (dd : String)
    (h : provider (dget tm s s) "1mo" "1h" = .ok []) (st : RunState) :
    fetch_hourly provider s tm dd st
      = .ok (pushLog st ("WARNING: No hourly data returned for " ++ s)) := by
  unfold fetch_hourly
  rw [h]
  rfl

theorem fetch_hourly_write {provider : Provider} {s : String} {tm : TickerMap}
    {df : List Bar} (dd : String)
    (h : provider (dget tm s s) "1mo" "1h" = .ok df) (hne : df ≠ []) (st : RunState) :
    fetch_hourly provider s tm dd st
      = .ok (pushLog (writeFile st (hourlyPath dd s) (hourlyCsv df))
          ("✓ " ++ s ++ " hourly: " ++ natRepr df.length ++ " bars → "
            ++ hourlyPath dd s)) := by
  unfold fetch_hourly
  rw [h]
  have hemp : df.isEmpty = false := by
    cases df with
    | nil => exact absurd rfl hne
    | cons a t => rfl
  simp only [hemp]
  rfl

theorem fetch_daily_raise {provider : Provider} {s : String} {tm : TickerMap}
    {e : String} (dd : String)
    (h : provider (dget tm s s) "max" "1d" = .error e) (st : RunState) :
    fetch_daily provider s tm dd st = .error e := by
  unfold fetch_daily
  rw [h]

theorem fetch_daily_empty {provider : Provider} {s : String} {tm : TickerMap}
    (dd : String)
    (h : provider (dget tm s s) "max" "1d" = .ok []) (st : RunState) :
    fetch_daily provider s tm dd st
      = .ok (pushLog st ("WARNING: No daily data returned for " ++ s)) := by
  unfold fetch_daily
  rw [h]
  rfl

theorem fetch_daily_write {provider : Provider} {s : String} {tm : TickerMap}
    {df : List Bar} (dd : String)
    (h : provider (dget tm s s) "max" "1d" = .ok df) (hne : df ≠ []) (st : RunState) :
    fetch_daily provider s tm dd st
      = .ok (pushLog (writeFile st (dailyPath dd s) (dailyCsv df))
          ("✓ " ++ s ++ " daily: " ++ natRepr df.length ++ " bars → "
            ++ dailyPath dd s)) := by
  unfold fetch_daily
  rw [h]
  have hemp : df.isEmpty = false := by
    cases df with
    | nil => exact absurd rfl hne
    | cons a t => rfl
  simp only [hemp]
  rfl

/-! Ghost observations of the loop: its final status and the set of file
writes it performs, both independent of the starting state. -/

/-- The status the loop ends with, as a function of the provider alone. -/
def loopStatus (provider : Provider) (tm : TickerMap) : List String → ExitStatus
  | [] => .success
  | s :: rest =>
    match symbolRaise provider tm s with
    | some e => .fetchFailure s e
    | none => loopStatus provider tm rest

/-- The last write the loop performs at path `q`, if any (later symbols win,
the daily write of one symbol wins over its hourly write). -/
def loopWrites (provider : Provider) (tm : TickerMap) (dd : String) :
    List String → String → Option String
  | [], _ => none
  | s :: rest, q =>
    match provider (dget tm s s) "1mo" "1h" with
    | .error _ => none
    | .ok df1 =>
      match provider (dget tm s s) "max" "1d" with
      | .error _ =>
        if df1.isEmpty then none
        else if q = hourlyPath dd s then some (hourlyCsv df1) else none
      | .ok df2 =>
        (loopWrites provider tm dd rest q).or
          ((if df2.isEmpty then none
            else if q = dailyPath dd s then some (dailyCsv df2) else none).or
           (if df1.isEmpty then none
            else if q = hourlyPath dd s then some (hourlyCsv df1) else none))

theorem mainLoop_fst (provider : Provider) (tm : TickerMap) (dd : String) :
    ∀ (syms : List String) (st : RunState),
      (mainLoop provider tm dd syms st).1 = loopStatus provider tm syms := by
  intro syms
  induction syms with
  | nil => intro st; rfl
  | cons s rest ih =>
    intro st
    simp only [mainLoop, loopStatus, symbolRaise]
    cases h1 : provider (dget tm s s) "1mo" "1h" with
    | error e =>
      simp only [fetch_hourly_raise dd h1]
    | ok df1 =>
      cases h2 : provider (dget tm s s) "max" "1d" with
      | error e =>
        rcases eq_or_ne df1 [] with hdf | hne
        · subst hdf
          simp only [fetch_hourly_empty dd h1, fetch_daily_raise dd h2]
        · simp only [fetch_hourly_write dd h1 hne, fetch_daily_raise dd h2]
      | ok df2 =>
        rcases eq_or_ne df1 [] with hdf | hne
        · subst hdf
          simp only [fetch_hourly_empty dd h1]
          rcases eq_or_ne df2 [] with hdf2 | hne2
          · subst hdf2
            simp only [fetch_daily_empty dd h2]
            exact ih _
          · simp only [fetch_daily_write dd h2 hne2]
            exact ih _
        · simp only [fetch_hourly_write dd h1 hne]
          rcases eq_or_ne df2 [] with hdf2 | hne2
          · subst hdf2
            simp only [fetch_daily_empty dd h2]
            exact ih _
          · simp only [fetch_daily_write dd h2 hne2]
            exact ih _

@[simp] theorem some_or {α : Type} (a : α) (o : Option α) : (Option.some a).or o = some a := rfl

/-- The loop never prints to standard output. -/
theorem mainLoop_stdout (provider : Provider) (tm : TickerMap) (dd : String) :
    ∀ (syms : List String) (st : RunState),
      ((mainLoop provider tm dd syms st).2).stdout = st.stdout := by
  intro syms
  induction syms with
  | nil => intro st; rfl
  | cons s rest ih =>
    intro st
    simp only [mainLoop]
    cases h1 : provider (dget tm s s) "1mo" "1h" with
    | error e =>
      simp only [fetch_hourly_raise dd h1, pushLog_stdout]
    | ok df1 =>
      cases h2 : provider (dget tm s s) "max" "1d" with
      | error e =>
        rcases eq_or_ne df1 [] with hdf | hne
        · subst hdf
          simp only [fetch_hourly_empty dd h1, fetch_daily_raise dd h2, pushLog_stdout]
        · simp only [fetch_hourly_write dd h1 hne, fetch_daily_raise dd h2, pushLog_stdout,
            writeFile_stdout]
      | ok df2 =>
        rcases eq_or_ne df1 [] with hdf | hne
        · subst hdf
          simp only [fetch_hourly_empty dd h1]
          rcases eq_or_ne df2 [] with hdf2 | hne2
          · subst hdf2
            simp only [fetch_daily_empty dd h2, ih, pushLog_stdout]
          · simp only [fetch_daily_write dd h2 hne2, ih, pushLog_stdout, writeFile_stdout]
        · simp only [fetch_hourly_write dd h1 hne]
          rcases eq_or_ne df2 [] with hdf2 | hne2
          · subst hdf2
            simp only [fetch_daily_empty dd h2, ih, pushLog_stdout, writeFile_stdout]
          · simp only [fetch_daily_write dd h2 hne2, ih, pushLog_stdout, writeFile_stdout]

/-- At each path the loop's final file system is the loop's own last write
there, falling back to the starting file system. -/
theorem mainLoop_fs (provider : Provider) (tm : TickerMap) (dd : String) :
    ∀ (syms : List String) (st : RunState) (q : String),
      ((mainLoop provider tm dd syms st).2).fs q
        = (loopWrites provider tm dd syms q).or (st.fs q) := by
  intro syms
  induction syms with
  | nil => intro st q; rfl
  | cons s rest ih =>
    intro st q
    simp only [mainLoop, loopWrites]
    cases h1 : provider (dget tm s s) "1mo" "1h" with
    | error e =>
      simp only [fetch_hourly_raise dd h1, pushLog_fs, Option.none_or]
    | ok df1 =>
      cases h2 : provider (dget tm s s) "max" "1d" with
      | error e =>
        rcases eq_or_ne df1 [] with hdf | hne
        · subst hdf
          simp only [fetch_hourly_empty dd h1, fetch_daily_raise dd h2, pushLog_fs,
            List.isEmpty_nil, if_true, Option.none_or]
        · have hemp1 : df1.isEmpty = false := by
            cases df1 with
            | nil => exact absurd rfl hne
            | cons a t => rfl
          simp only [fetch_hourly_write dd h1 hne, fetch_daily_raise dd h2, pushLog_fs,
            writeFile_fs, hemp1, Bool.false_eq_true, if_false]
          by_cases hq : q = hourlyPath dd s
          · simp [hq]
          · simp [hq]
      | ok df2 =>
        rcases eq_or_ne df1 [] with hdf | hne
        · subst hdf
          simp only [fetch_hourly_empty dd h1, List.isEmpty_nil, if_true]
          rcases eq_or_ne df2 [] with hdf2 | hne2
          · subst hdf2
            simp only [fetch_daily_empty dd h2, ih, pushLog_fs, List.isEmpty_nil, if_true,
              Option.or_none, Option.none_or]
          · have hemp2 : df2.isEmpty = false := by
              cases df2 with
              | nil => exact absurd rfl hne2
              | cons a t => rfl
            simp only [fetch_daily_write dd h2 hne2, ih, pushLog_fs, writeFile_fs, hemp2,
              Bool.false_eq_true, if_false, Option.or_none]
            by_cases hq : q = dailyPath dd s
            · simp [hq, Option.or_assoc]
            · simp [hq, Option.or_assoc]
        · have hemp1 : df1.isEmpty = false := by
            cases df1 with
            | nil => exact absurd rfl hne
            | cons a t => rfl
          simp only [fetch_hourly_write dd h1 hne, hemp1, Bool.false_eq_true, if_false]
          rcases eq_or_ne df2 [] with hdf2 | hne2
          · subst hdf2
            simp only [fetch_daily_empty dd h2, ih, pushLog_fs, writeFile_fs,
              List.isEmpty_nil, if_true, Option.none_or]
            by_cases hq : q = hourlyPath dd s
            · simp [hq, Option.or_assoc]
            · simp [hq, Option.or_assoc]
          · have hemp2 : df2.isEmpty = false := by
              cases df2 with
              | nil => exact absurd rfl hne2
              | cons a t => rfl
            simp only [fetch_daily_write dd h2 hne2, ih, pushLog_fs, writeFile_fs, hemp1,
              hemp2, Bool.false_eq_true, if_false]
            by_cases hq2 : q = dailyPath dd s
            · subst hq2
              simp [Option.or_assoc]
            · by_cases hq1 : q = hourlyPath dd s
              · subst hq1
                simp [hq2, Option.or_assoc]
              · simp [hq1, hq2, Option.or_assoc]

/-- The loop succeeds exactly when no configured symbol's pair of provider
calls raises. -/
theorem loopStatus_success_iff (provider : Provider) (tm : TickerMap) :
    ∀ syms : List String,
      loopStatus provider tm syms = .success
        ↔ ∀ s ∈ syms, symbolRaise provider tm s = none := by
  intro syms
  induction syms with
  | nil => simp [loopStatus]
  | cons s rest ih =>
    simp only [loopStatus]
    cases h : symbolRaise provider tm s with
    | some e => simp [h, List.forall_mem_cons]
    | none => simp [h, List.forall_mem_cons, ih]

/-- The loop never writes at the timestamp marker path. -/
theorem loopWrites_lastUpdated (provider : Provider) (tm : TickerMap) :
    ∀ syms : List String,
      loopWrites provider tm "data" syms lastUpdatedPath = none := by
  intro syms
  induction syms with
  | nil => rfl
  | cons s rest ih =>
    simp only [loopWrites]
    cases h1 : provider (dget tm s s) "1mo" "1h" with
    | error e => rfl
    | ok df1 =>
      cases h2 : provider (dget tm s s) "max" "1d" with
      | error e =>
        simp [Ne.symm (hourlyPath_ne_lastUpdated s)]
      | ok df2 =>
        simp [ih, Ne.symm (hourlyPath_ne_lastUpdated s), Ne.symm (dailyPath_ne_lastUpdated s)]

/-- Splitting the symbol list: when the first block of symbols all succeed,
the loop is the composition of the two blocks. -/
theorem mainLoop_append (provider : Provider) (tm : TickerMap) (dd : String) :
    ∀ (syms l : List String) (st : RunState),
      loopStatus provider tm syms = .success →
      mainLoop provider tm dd (syms ++ l) st
        = mainLoop provider tm dd l ((mainLoop provider tm dd syms st).2) := by
  intro syms
  induction syms with
  | nil => intro l st _; rfl
  | cons s rest ih =>
    intro l st h
    have hall := (loopStatus_success_iff provider tm (s :: rest)).mp h
    have hs : symbolRaise provider tm s = none := hall s (by simp)
    have hrest : loopStatus provider tm rest = .success :=
      (loopStatus_success_iff provider tm rest).mpr (fun x hx => hall x (by simp [hx]))
    unfold symbolRaise at hs
    cases h1 : provider (dget tm s s) "1mo" "1h" with
    | error e => rw [h1] at hs; simp at hs
    | ok df1 =>
      rw [h1] at hs
      cases h2 : provider (dget tm s s) "max" "1d" with
      | error e => rw [h2] at hs; simp at hs
      | ok df2 =>
        rcases eq_or_ne df1 [] with hdf | hne
        · subst hdf
          rcases eq_or_ne df2 [] with hdf2 | hne2
          · subst hdf2
            simp only [List.cons_append, mainLoop, fetch_hourly_empty dd h1,
              fetch_daily_empty dd h2]
            exact ih l _ hrest
          · simp only [List.cons_append, mainLoop, fetch_hourly_empty dd h1,
              fetch_daily_write dd h2 hne2]
            exact ih l _ hrest
        · rcases eq_or_ne df2 [] with hdf2 | hne2
          · subst hdf2
            simp only [List.cons_append, mainLoop, fetch_hourly_write dd h1 hne,
              fetch_daily_empty dd h2]
            exact ih l _ hrest
          · simp only [List.cons_append, mainLoop, fetch_hourly_write dd h1 hne,
              fetch_daily_write dd h2 hne2]
            exact ih l _ hrest

/-- What the loop does when its first symbol raises: the remaining symbols
are irrelevant, the status carries the symbol and error text, the error
message is the last diagnostic line, and no path other than possibly the
symbol's own hourly CSV is written. -/
theorem mainLoop_raise (provider : Provider) (tm : TickerMap) (dd : String)
    (X e : String) (h : symbolRaise provider tm X = some e) :
    ∀ (rest : List String) (st : RunState),
      mainLoop provider tm dd (X :: rest) st = mainLoop provider tm dd [X] st
      ∧ (mainLoop provider tm dd [X] st).1 = .fetchFailure X e
      ∧ (∃ mid, (mainLoop provider tm dd [X] st).2.stderr
          = st.stderr ++ ["Fetching " ++ X ++ "..."] ++ mid ++ [fetchErrorMsg X e])
      ∧ ∀ q, q ≠ hourlyPath dd X → (mainLoop provider tm dd [X] st).2.fs q = st.fs q := by
  intro rest st
  unfold symbolRaise at h
  cases h1 : provider (dget tm X X) "1mo" "1h" with
  | error e1 =>
    rw [h1] at h
    have he : e1 = e := by simpa using h
    subst he
    refine ⟨?_, ?_, ⟨[], ?_⟩, ?_⟩
    · simp only [mainLoop, fetch_hourly_raise dd h1]
    · simp only [mainLoop, fetch_hourly_raise dd h1]
    · simp only [mainLoop, fetch_hourly_raise dd h1, pushLog_stderr]
      simp
    · intro q _
      simp only [mainLoop, fetch_hourly_raise dd h1, pushLog_fs]
  | ok df1 =>
    rw [h1] at h
    cases h2 : provider (dget tm X X) "max" "1d" with
    | error e2 =>
      rw [h2] at h
      have he : e2 = e := by simpa using h
      subst he
      rcases eq_or_ne df1 [] with hdf | hne
      · subst hdf
        refine ⟨?_, ?_, ⟨["WARNING: No hourly data returned for " ++ X], ?_⟩, ?_⟩
        · simp only [mainLoop, fetch_hourly_empty dd h1, fetch_daily_raise dd h2]
        · simp only [mainLoop, fetch_hourly_empty dd h1, fetch_daily_raise dd h2]
        · simp only [mainLoop, fetch_hourly_empty dd h1, fetch_daily_raise dd h2,
            pushLog_stderr]
        · intro q _
          simp only [mainLoop, fetch_hourly_empty dd h1, fetch_daily_raise dd h2, pushLog_fs]
      · refine ⟨?_, ?_, ⟨["✓ " ++ X ++ " hourly: " ++ natRepr df1.length ++ " bars → "
            ++ hourlyPath dd X], ?_⟩, ?_⟩
        · simp only [mainLoop, fetch_hourly_write dd h1 hne, fetch_daily_raise dd h2]
        · simp only [mainLoop, fetch_hourly_write dd h1 hne, fetch_daily_raise dd h2]
        · simp only [mainLoop, fetch_hourly_write dd h1 hne, fetch_daily_raise dd h2,
            pushLog_stderr, writeFile_stderr]
        · intro q hq
          simp only [mainLoop, fetch_hourly_write dd h1 hne, fetch_daily_raise dd h2,
            pushLog_fs, writeFile_fs]
          rw [if_neg hq]
    | ok df2 =>
      rw [h2] at h
      simp at h

/-! Concrete sample objects used to instantiate hypothesis-bearing theorems. -/

/-- A file system with nothing on disk. -/
def emptyFs : String → Option String := fun _ => none

/-- A concrete bar used in instantiations. -/
def sampleBar : Bar :=
  { ts := { year := 2024, month := 5, day := 7, hour := 13, minute := 30, second := 0 },
    Open := "101.5", High := "103.0", Low := "99.25", Close := "102.75", Volume := "12000" }

/-- A provider that answers one bar for hourly requests and two bars for
daily requests, regardless of ticker. -/
def sampleProvider : Provider := fun _ _ interval =>
  if interval == "1h" then .ok [sampleBar] else .ok [sampleBar, sampleBar]

/-- A provider that always raises. -/
def failingProvider : Provider := fun _ _ _ => .error "HTTP Error 404"

/-- A provider that always answers an empty series. -/
def emptyProvider : Provider := fun _ _ _ => .ok []

/-- A run state with empty disk and streams. -/
def baseSt : RunState := { fs := emptyFs, stderr := [], stdout := [] }

/-! The claims. -/

/-- C9: in every run, all progress, warning and error messages go to the
process's error/diagnostic stream and never to standard output; standard
output remains empty throughout the run. -/
theorem c9_stdout_always_empty (configFile : ConfigFile) (provider : Provider)
    (now : Timestamp) (fs0 : String → Option String) :
    (main configFile provider now fs0).stdout = [] := by
  unfold main
  cases configFile with
  | absent => rfl
  | malformed => rfl
  | parsed doc =>
    simp only [load_config]
    cases hres : get_symbols_from_config doc with
    | error key => rfl
    | ok pr =>
      rcases pr with ⟨symbols, tm⟩
      cases hpa : doc.pairs with
      | none => rfl
      | some pairs =>
        rcases hml : mainLoop provider tm "data" symbols (initState symbols pairs fs0)
          with ⟨status, st⟩
        have hstd : st.stdout = [] := by
          have h2 := mainLoop_stdout provider tm "data" symbols (initState symbols pairs fs0)
          rw [hml] at h2
          exact h2
        cases status <;> simp [hml, hstd]

/-- C7 counterexample: the run with a missing config.json and a run aborted
by a provider error exit with the same code 1, so the configuration-error
exit code is not distinct from the fetch-error exit code. -/
theorem c7_counterexample :
    exitCode (main .absent failingProvider
        { year := 2024, month := 1, day := 1, hour := 0, minute := 0, second := 0 }
        emptyFs).status = 1
    ∧ exitCode (main
        (.parsed { symbols := some [{ symbol := "SPY", ticker := none }], pairs := some [] })
        failingProvider
        { year := 2024, month := 1, day := 1, hour := 0, minute := 0, second := 0 }
        emptyFs).status = 1
    ∧ (main
        (.parsed { symbols := some [{ symbol := "SPY", ticker := none }], pairs := some [] })
        failingProvider
        { year := 2024, month := 1, day := 1, hour := 0, minute := 0, second := 0 }
        emptyFs).status = .fetchFailure "SPY" "HTTP Error 404" := by
  refine ⟨rfl, ?_, ?_⟩ <;> rfl

/-- C7 (amended): a configuration error (config.json absent or unparsable) is
fatal — immediate termination with non-zero exit status 1, an error message on
the diagnostic stream, no fallback, nothing written, the provider never
consulted — but the exit code is the same 1 used for fetch/provider errors,
not a distinct code. -/
theorem c7_config_error_fatal (cf : ConfigFile) (provider : Provider)
    (now : Timestamp) (fs0 : String → Option String)
    (h : cf = .absent ∨ cf = .malformed) :
    exitCode (main cf provider now fs0).status = 1
    ∧ (main cf provider now fs0).stderr ≠ []
    ∧ (∀ p, (main cf provider now fs0).fs p = fs0 p)
    ∧ (cf = .absent → (main cf provider now fs0).stderr = ["ERROR: config.json not found"])
    ∧ (∀ provider2 : Provider, main cf provider2 now fs0 = main cf provider now fs0)
    ∧ exitCode (.fetchFailure "X" "err" : ExitStatus) = 1 := by
  rcases h with h | h <;> subst h
  · exact ⟨rfl, by simp [main, load_config], fun p => rfl, fun _ => rfl, fun p2 => rfl, rfl⟩
  · exact ⟨rfl, by simp [main, load_config], fun p => rfl,
      fun hc => ConfigFile.noConfusion hc, fun p2 => rfl, rfl⟩

/-- C7 witness: the amended claim applied to the concrete missing-config run. -/
theorem c7_config_error_fatal_witness :
    (ConfigFile.absent = ConfigFile.absent ∨ ConfigFile.absent = ConfigFile.malformed)
    ∧ exitCode (main .absent sampleProvider
        { year := 2024, month := 1, day := 1, hour := 0, minute := 0, second := 0 }
        emptyFs).status = 1
    ∧ (main .absent sampleProvider
        { year := 2024, month := 1, day := 1, hour := 0, minute := 0, second := 0 }
        emptyFs).stderr = ["ERROR: config.json not found"] :=
  ⟨Or.inl rfl,
   (c7_config_error_fatal .absent sampleProvider
     { year := 2024, month := 1, day := 1, hour := 0, minute := 0, second := 0 }
     emptyFs (Or.inl rfl)).1,
   (c7_config_error_fatal .absent sampleProvider
     { year := 2024, month := 1, day := 1, hour := 0, minute := 0, second := 0 }
     emptyFs (Or.inl rfl)).2.2.2.1 rfl⟩

/-- C10: a configuration that parses as JSON but lacks the top-level "pairs"
key (or the "symbols" key) kills the process with an unhandled KeyError and
exit status 1, before any fetch is attempted (no provider call can influence
the outcome) and before any output file is written — even though "pairs" is
consumed only for a diagnostic count. -/
theorem c10_missing_key_fatal (doc : ConfigDoc) (provider : Provider)
    (now : Timestamp) (fs0 : String → Option String) :
    (doc.symbols = none →
      (main (.parsed doc) provider now fs0).status = .keyError "symbols"
      ∧ exitCode (main (.parsed doc) provider now fs0).status = 1
      ∧ (∀ p, (main (.parsed doc) provider now fs0).fs p = fs0 p)
      ∧ ∀ provider2 : Provider,
          main (.parsed doc) provider2 now fs0 = main (.parsed doc) provider now fs0)
    ∧ (doc.pairs = none → ∀ entries, doc.symbols = some entries →
      (main (.parsed doc) provider now fs0).status = .keyError "pairs"
      ∧ exitCode (main (.parsed doc) provider now fs0).status = 1
      ∧ (∀ p, (main (.parsed doc) provider now fs0).fs p = fs0 p)
      ∧ ∀ provider2 : Provider,
          main (.parsed doc) provider2 now fs0 = main (.parsed doc) provider now fs0) := by
  constructor
  · intro hsy
    simp [main, load_config, get_symbols_from_config, hsy, exitCode]
  · intro hpa entries hsy
    simp [main, load_config, get_symbols_from_config, hsy, hpa, exitCode]

/-- C10 witness: the theorem applied to a concrete config missing "pairs". -/
theorem c10_missing_key_fatal_witness :
    ({ symbols := some [{ symbol := "SPY", ticker := none }], pairs := none } : ConfigDoc).pairs
        = none
    ∧ (main (.parsed { symbols := some [{ symbol := "SPY", ticker := none }], pairs := none })
        sampleProvider
        { year := 2024, month := 1, day := 1, hour := 0, minute := 0, second := 0 }
        emptyFs).status = .keyError "pairs" :=
  ⟨rfl,
   ((c10_missing_key_fatal
      { symbols := some [{ symbol := "SPY", ticker := none }], pairs := none }
      sampleProvider
      { year := 2024, month := 1, day := 1, hour := 0, minute := 0, second := 0 }
      emptyFs).2 rfl [{ symbol := "SPY", ticker := none }] rfl).1⟩


/-- C2: for every non-empty hourly series the program writes the CSV at
data/{lowercase symbol}_hourly.csv: a header row Date,Time,Open,High,Low,
Close,Volume followed by one row per bar (date YYYY-MM-DD, time HH:MM:SS,
then the five pass-through fields), N+1 lines in all, no index column,
overwriting whatever the path held before; no other path changes. -/
theorem c2_fetch_hourly_csv (provider : Provider) (symbol : String)
    (tm : TickerMap) (st : RunState) (bars : List Bar)
    (hfetch : provider (dget tm symbol symbol) "1mo" "1h" = .ok bars)
    (hne : bars ≠ []) :
    ∃ st2, fetch_hourly provider symbol tm "data" st = .ok st2
      ∧ st2.fs ("data" ++ "/" ++ symbol.toLower ++ "_hourly.csv")
          = some (joinLines ("Date,Time,Open,High,Low,Close,Volume"
              :: bars.map (fun b =>
                fmtDate b.ts ++ "," ++ fmtTime b.ts ++ "," ++ b.Open ++ "," ++ b.High ++ ","
                  ++ b.Low ++ "," ++ b.Close ++ "," ++ b.Volume)))
      ∧ ("Date,Time,Open,High,Low,Close,Volume"
            :: bars.map (fun b =>
              fmtDate b.ts ++ "," ++ fmtTime b.ts ++ "," ++ b.Open ++ "," ++ b.High ++ ","
                ++ b.Low ++ "," ++ b.Close ++ "," ++ b.Volume)).length
          = bars.length + 1
      ∧ ((∀ b ∈ bars, barFieldsClean b) →
          ((joinLines ("Date,Time,Open,High,Low,Close,Volume"
              :: bars.map (fun b =>
                fmtDate b.ts ++ "," ++ fmtTime b.ts ++ "," ++ b.Open ++ "," ++ b.High ++ ","
                  ++ b.Low ++ "," ++ b.Close ++ "," ++ b.Volume))).data).count '\n'
            = bars.length + 1)
      ∧ ∀ q, q ≠ "data" ++ "/" ++ symbol.toLower ++ "_hourly.csv" → st2.fs q = st.fs q := by
  refine ⟨pushLog (writeFile st (hourlyPath "data" symbol) (hourlyCsv bars))
      ("✓ " ++ symbol ++ " hourly: " ++ natRepr bars.length ++ " bars → "
        ++ hourlyPath "data" symbol),
    fetch_hourly_write "data" hfetch hne st, ?_, ?_, ?_, ?_⟩
  · show (if hourlyPath "data" symbol = hourlyPath "data" symbol
        then some (hourlyCsv bars) else st.fs (hourlyPath "data" symbol))
      = some (hourlyCsv bars)
    rw [if_pos rfl]
  · simp
  · intro hclean
    have hlines : ∀ l ∈ ("Date,Time,Open,High,Low,Close,Volume"
        :: bars.map (fun b =>
          fmtDate b.ts ++ "," ++ fmtTime b.ts ++ "," ++ b.Open ++ "," ++ b.High ++ ","
            ++ b.Low ++ "," ++ b.Close ++ "," ++ b.Volume)), Char.ofNat 10 ∉ l.data := by
      intro l hl
      rcases List.mem_cons.mp hl with hl | hl
      · subst hl
        decide
      · rcases List.mem_map.mp hl with ⟨b, hb, rfl⟩
        exact hourlyRow_no_newline b (hclean b hb)
    rw [joinLines_count _ hlines]
    simp
  · intro q hq
    show (if q = hourlyPath "data" symbol then some (hourlyCsv bars) else st.fs q) = st.fs q
    exact if_neg hq

/-- C2 witness: one concrete hourly bar becomes the expected two-line CSV at
data/spy_hourly.csv. -/
theorem c2_fetch_hourly_csv_witness :
    sampleProvider (dget [] "SPY" "SPY") "1mo" "1h" = .ok [sampleBar]
    ∧ [sampleBar] ≠ []
    ∧ (∃ st2, fetch_hourly sampleProvider "SPY" [] "data" baseSt = .ok st2
        ∧ st2.fs ("data" ++ "/" ++ "SPY".toLower ++ "_hourly.csv")
            = some (joinLines ("Date,Time,Open,High,Low,Close,Volume"
                :: [sampleBar].map (fun b =>
                  fmtDate b.ts ++ "," ++ fmtTime b.ts ++ "," ++ b.Open ++ "," ++ b.High ++ ","
                    ++ b.Low ++ "," ++ b.Close ++ "," ++ b.Volume))))
    ∧ joinLines ("Date,Time,Open,High,Low,Close,Volume"
          :: [sampleBar].map (fun b =>
            fmtDate b.ts ++ "," ++ fmtTime b.ts ++ "," ++ b.Open ++ "," ++ b.High ++ ","
              ++ b.Low ++ "," ++ b.Close ++ "," ++ b.Volume))
        = "Date,Time,Open,High,Low,Close,Volume\n2024-05-07,13:30:00,101.5,103.0,99.25,102.75,12000\n" := by
  refine ⟨rfl, by decide, ?_, by decide⟩
  obtain ⟨st2, h1, h2, h3, h4, h5⟩ :=
    c2_fetch_hourly_csv sampleProvider "SPY" [] baseSt [sampleBar] rfl (by decide)
  exact ⟨st2, h1, h2⟩

/-- C3: for every non-empty daily series the program writes the CSV at
data/{lowercase symbol}.csv: a header row Date,Open,High,Low,Close,Volume
(no Time column) followed by one row per bar with the date as YYYY-MM-DD,
N+1 lines in all, no index column, overwriting whatever the path held
before; no other path changes. -/
theorem c3_fetch_daily_csv (provider : Provider) (symbol : String)
    (tm : TickerMap) (st : RunState) (bars : List Bar)
    (hfetch : provider (dget tm symbol symbol) "max" "1d" = .ok bars)
    (hne : bars ≠ []) :
    ∃ st2, fetch_daily provider symbol tm "data" st = .ok st2
      ∧ st2.fs ("data" ++ "/" ++ symbol.toLower ++ ".csv")
          = some (joinLines ("Date,Open,High,Low,Close,Volume"
              :: bars.map (fun b =>
                fmtDate b.ts ++ "," ++ b.Open ++ "," ++ b.High ++ ","
                  ++ b.Low ++ "," ++ b.Close ++ "," ++ b.Volume)))
      ∧ ("Date,Open,High,Low,Close,Volume"
            :: bars.map (fun b =>
              fmtDate b.ts ++ "," ++ b.Open ++ "," ++ b.High ++ ","
                ++ b.Low ++ "," ++ b.Close ++ "," ++ b.Volume)).length
          = bars.length + 1
      ∧ ((∀ b ∈ bars, barFieldsClean b) →
          ((joinLines ("Date,Open,High,Low,Close,Volume"
              :: bars.map (fun b =>
                fmtDate b.ts ++ "," ++ b.Open ++ "," ++ b.High ++ ","
                  ++ b.Low ++ "," ++ b.Close ++ "," ++ b.Volume))).data).count '\n'
            = bars.length + 1)
      ∧ ∀ q, q ≠ "data" ++ "/" ++ symbol.toLower ++ ".csv" → st2.fs q = st.fs q := by
  refine ⟨pushLog (writeFile st (dailyPath "data" symbol) (dailyCsv bars))
      ("✓ " ++ symbol ++ " daily: " ++ natRepr bars.length ++ " bars → "
        ++ dailyPath "data" symbol),
    fetch_daily_write "data" hfetch hne st, ?_, ?_, ?_, ?_⟩
  · show (if dailyPath "data" symbol = dailyPath "data" symbol
        then some (dailyCsv bars) else st.fs (dailyPath "data" symbol))
      = some (dailyCsv bars)
    rw [if_pos rfl]
  · simp
  · intro hclean
    have hlines : ∀ l ∈ ("Date,Open,High,Low,Close,Volume"
        :: bars.map (fun b =>
          fmtDate b.ts ++ "," ++ b.Open ++ "," ++ b.High ++ ","
            ++ b.Low ++ "," ++ b.Close ++ "," ++ b.Volume)), Char.ofNat 10 ∉ l.data := by
      intro l hl
      rcases List.mem_cons.mp hl with hl | hl
      · subst hl
        decide
      · rcases List.mem_map.mp hl with ⟨b, hb, rfl⟩
        exact dailyRow_no_newline b (hclean b hb)
    rw [joinLines_count _ hlines]
    simp
  · intro q hq
    show (if q = dailyPath "data" symbol then some (dailyCsv bars) else st.fs q) = st.fs q
    exact if_neg hq

/-- C3 witness: two concrete daily bars become the expected three-line CSV at
data/spy.csv, with no Time column. -/
theorem c3_fetch_daily_csv_witness :
    sampleProvider (dget [] "SPY" "SPY") "max" "1d" = .ok [sampleBar, sampleBar]
    ∧ [sampleBar, sampleBar] ≠ []
    ∧ (∃ st2, fetch_daily sampleProvider "SPY" [] "data" baseSt = .ok st2
        ∧ st2.fs ("data" ++ "/" ++ "SPY".toLower ++ ".csv")
            = some (joinLines ("Date,Open,High,Low,Close,Volume"
                :: [sampleBar, sampleBar].map (fun b =>
                  fmtDate b.ts ++ "," ++ b.Open ++ "," ++ b.High ++ ","
                    ++ b.Low ++ "," ++ b.Close ++ "," ++ b.Volume))))
    ∧ joinLines ("Date,Open,High,Low,Close,Volume"
          :: [sampleBar, sampleBar].map (fun b =>
            fmtDate b.ts ++ "," ++ b.Open ++ "," ++ b.High ++ ","
              ++ b.Low ++ "," ++ b.Close ++ "," ++ b.Volume))
        = "Date,Open,High,Low,Close,Volume\n2024-05-07,101.5,103.0,99.25,102.75,12000\n2024-05-07,101.5,103.0,99.25,102.75,12000\n" := by
  refine ⟨rfl, by decide, ?_, by decide⟩
  obtain ⟨st2, h1, h2, h3, h4, h5⟩ :=
    c3_fetch_daily_csv sampleProvider "SPY" [] baseSt [sampleBar, sampleBar] rfl (by decide)
  exact ⟨st2, h1, h2⟩

/-- C4: an empty provider result for a (symbol, granularity) pair is
non-fatal: no exception propagates, no file is written or overwritten for
that pair (the whole file system is left untouched, so any previously
written file stays), a warning is logged, and the loop proceeds to the
symbol's other granularity and to the remaining symbols. -/
theorem c4_empty_result_skips_write (provider : Provider) (symbol : String)
    (tm : TickerMap) (dd : String) (st : RunState) :
    (provider (dget tm symbol symbol) "1mo" "1h" = .ok [] →
      fetch_hourly provider symbol tm dd st
        = .ok { fs := st.fs,
                stderr := st.stderr ++ ["WARNING: No hourly data returned for " ++ symbol],
                stdout := st.stdout })
    ∧ (provider (dget tm symbol symbol) "max" "1d" = .ok [] →
      fetch_daily provider symbol tm dd st
        = .ok { fs := st.fs,
                stderr := st.stderr ++ ["WARNING: No daily data returned for " ++ symbol],
                stdout := st.stdout })
    ∧ (provider (dget tm symbol symbol) "1mo" "1h" = .ok [] →
       provider (dget tm symbol symbol) "max" "1d" = .ok [] →
       ∀ rest : List String,
         mainLoop provider tm dd (symbol :: rest) st
           = mainLoop provider tm dd rest
               { fs := st.fs,
                 stderr := st.stderr ++ ["Fetching " ++ symbol ++ "...",
                   "WARNING: No hourly data returned for " ++ symbol,
                   "WARNING: No daily data returned for " ++ symbol],
                 stdout := st.stdout }) := by
  refine ⟨?_, ?_, ?_⟩
  · intro h1
    rw [fetch_hourly_empty dd h1]
    rfl
  · intro h2
    rw [fetch_daily_empty dd h2]
    rfl
  · intro h1 h2 rest
    simp [mainLoop, fetch_hourly_empty dd h1, fetch_daily_empty dd h2, pushLog]

/-- C4 witness: the empty-result policy applied to a concrete run state with
a file already on disk at the hourly path, which stays untouched. -/
theorem c4_empty_result_skips_write_witness :
    emptyProvider (dget [] "SPY" "SPY") "1mo" "1h" = .ok []
    ∧ fetch_hourly emptyProvider "SPY" [] "data" baseSt
        = .ok { fs := baseSt.fs,
                stderr := ["WARNING: No hourly data returned for SPY"],
                stdout := [] } :=
  ⟨rfl, (c4_empty_result_skips_write emptyProvider "SPY" [] "data" baseSt).1 rfl⟩


/-- One parsed-config run, characterized: the final status is the loop
status, and every non-marker path holds the loop's last write there, else
the starting content. -/
theorem main_parsed_run (doc : ConfigDoc) (provider : Provider) (now : Timestamp)
    (fs0 : String → Option String) (symbols : List String) (tm : TickerMap)
    (pairs : List String)
    (hres : get_symbols_from_config doc = .ok (symbols, tm))
    (hpa : doc.pairs = some pairs) :
    (main (.parsed doc) provider now fs0).status = loopStatus provider tm symbols
    ∧ ∀ q, q ≠ lastUpdatedPath →
        (main (.parsed doc) provider now fs0).fs q
          = (loopWrites provider tm "data" symbols q).or (fs0 q) := by
  simp only [main, load_config, hres, hpa]
  rcases hml : mainLoop provider tm "data" symbols (initState symbols pairs fs0) with ⟨s1, st1⟩
  have hst1 : s1 = loopStatus provider tm symbols := by
    have h2 := mainLoop_fst provider tm "data" symbols (initState symbols pairs fs0)
    rw [hml] at h2
    exact h2
  have hfs1 : ∀ q, st1.fs q = (loopWrites provider tm "data" symbols q).or (fs0 q) := by
    intro q
    have h2 := mainLoop_fs provider tm "data" symbols (initState symbols pairs fs0) q
    rw [hml] at h2
    exact h2
  cases s1 with
  | success =>
    refine ⟨hst1, ?_⟩
    intro q hq
    show (if q = lastUpdatedPath then some (fmtUtcStamp now) else st1.fs q) = _
    rw [if_neg hq]
    exact hfs1 q
  | configMissing => exact ⟨hst1, fun q _ => hfs1 q⟩
  | jsonError => exact ⟨hst1, fun q _ => hfs1 q⟩
  | keyError key => exact ⟨hst1, fun q _ => hfs1 q⟩
  | fetchFailure s e => exact ⟨hst1, fun q _ => hfs1 q⟩

/-- C8: running the orchestrator twice with identical configuration and
identical provider responses gives byte-identical contents at every output
path — only the timestamp marker may differ between the runs — and the same
exit status. -/
theorem c8_idempotent (cf : ConfigFile) (provider : Provider)
    (now1 now2 : Timestamp) (fs0 : String → Option String) :
    (main cf provider now2 (main cf provider now1 fs0).fs).status
      = (main cf provider now1 fs0).status
    ∧ ∀ q, q ≠ lastUpdatedPath →
        (main cf provider now2 (main cf provider now1 fs0).fs).fs q
          = (main cf provider now1 fs0).fs q := by
  cases cf with
  | absent => exact ⟨rfl, fun q _ => rfl⟩
  | malformed => exact ⟨rfl, fun q _ => rfl⟩
  | parsed doc =>
    cases hres : get_symbols_from_config doc with
    | error key =>
      exact ⟨by simp [main, load_config, hres], fun q _ => by simp [main, load_config, hres]⟩
    | ok pr =>
      rcases pr with ⟨symbols, tm⟩
      cases hpa : doc.pairs with
      | none =>
        exact ⟨by simp [main, load_config, hres, hpa],
          fun q _ => by simp [main, load_config, hres, hpa]⟩
      | some pairs =>
        have h1 := main_parsed_run doc provider now1 fs0 symbols tm pairs hres hpa
        have h2 := main_parsed_run doc provider now2
          (main (.parsed doc) provider now1 fs0).fs symbols tm pairs hres hpa
        constructor
        · rw [h2.1, h1.1]
        · intro q hq
          rw [h2.2 q hq, h1.2 q hq]
          cases hw : loopWrites provider tm "data" symbols q <;> simp [hw]

/-- C5: data/last_updated.txt is written exactly when every configured
symbol's pair of fetch attempts completes without an unhandled exception
(empty results count as success), and it then holds the current UTC time
formatted YYYY-MM-DD HH:MM:SS UTC; when any fetch raises, the marker path is
left exactly as the run found it. -/
theorem c5_marker_iff_success (doc : ConfigDoc) (provider : Provider)
    (now : Timestamp) (fs0 : String → Option String)
    (symbols : List String) (tm : TickerMap) (pairs : List String)
    (hpa : doc.pairs = some pairs)
    (hres : get_symbols_from_config doc = .ok (symbols, tm)) :
    ((main (.parsed doc) provider now fs0).status = .success
        ↔ ∀ s ∈ symbols, symbolRaise provider tm s = none)
    ∧ ((main (.parsed doc) provider now fs0).status = .success →
        (main (.parsed doc) provider now fs0).fs lastUpdatedPath
          = some (fmtDate now ++ " " ++ fmtTime now ++ " UTC"))
    ∧ ((main (.parsed doc) provider now fs0).status ≠ .success →
        (main (.parsed doc) provider now fs0).fs lastUpdatedPath = fs0 lastUpdatedPath) := by
  have hstat := (main_parsed_run doc provider now fs0 symbols tm pairs hres hpa).1
  refine ⟨by rw [hstat]; exact loopStatus_success_iff provider tm symbols, ?_, ?_⟩
  · rw [hstat]
    intro hsucc
    simp only [main, load_config, hres, hpa]
    rcases hml : mainLoop provider tm "data" symbols (initState symbols pairs fs0) with ⟨s1, st1⟩
    have hs1 : s1 = loopStatus provider tm symbols := by
      have h2 := mainLoop_fst provider tm "data" symbols (initState symbols pairs fs0)
      rw [hml] at h2
      exact h2
    rw [hsucc] at hs1
    subst hs1
    show (if lastUpdatedPath = lastUpdatedPath then some (fmtUtcStamp now)
        else st1.fs lastUpdatedPath)
      = some (fmtDate now ++ " " ++ fmtTime now ++ " UTC")
    rw [if_pos rfl]
    rfl
  · rw [hstat]
    intro hne
    simp only [main, load_config, hres, hpa]
    rcases hml : mainLoop provider tm "data" symbols (initState symbols pairs fs0) with ⟨s1, st1⟩
    have hs1 : s1 = loopStatus provider tm symbols := by
      have h2 := mainLoop_fst provider tm "data" symbols (initState symbols pairs fs0)
      rw [hml] at h2
      exact h2
    have hfs1 := mainLoop_fs provider tm "data" symbols (initState symbols pairs fs0) lastUpdatedPath
    rw [hml, loopWrites_lastUpdated, Option.none_or] at hfs1
    cases s1 with
    | success => exact absurd hs1.symm hne
    | configMissing => exact hfs1
    | jsonError => exact hfs1
    | keyError key => exact hfs1
    | fetchFailure s e => exact hfs1

/-- The spec's end-to-end scenario config: SPY without override, BTC with
override BTC-USD, empty pairs list. -/
def sampleDoc : ConfigDoc :=
  { symbols := some [{ symbol := "SPY", ticker := none },
      { symbol := "BTC", ticker := some "BTC-USD" }],
    pairs := some [] }

/-- C5 witness: a concrete fully successful two-symbol run writes the marker
with the formatted run time. -/
theorem c5_marker_iff_success_witness :
    sampleDoc.pairs = some []
    ∧ get_symbols_from_config sampleDoc = .ok (["SPY", "BTC"], [("BTC", "BTC-USD")])
    ∧ (∀ s ∈ ["SPY", "BTC"], symbolRaise sampleProvider [("BTC", "BTC-USD")] s = none)
    ∧ (main (.parsed sampleDoc) sampleProvider
        { year := 2024, month := 5, day := 7, hour := 14, minute := 0, second := 0 }
        emptyFs).status = .success
    ∧ (main (.parsed sampleDoc) sampleProvider
        { year := 2024, month := 5, day := 7, hour := 14, minute := 0, second := 0 }
        emptyFs).fs lastUpdatedPath = some "2024-05-07 14:00:00 UTC" := by
  have h := c5_marker_iff_success sampleDoc sampleProvider
    { year := 2024, month := 5, day := 7, hour := 14, minute := 0, second := 0 }
    emptyFs ["SPY", "BTC"] [("BTC", "BTC-USD")] [] rfl rfl
  have hs := h.1.mpr (by decide)
  have hm := h.2.1 hs
  refine ⟨rfl, rfl, by decide, hs, ?_⟩
  rw [hm]
  decide


/-- A provider that raises exactly for the ticker FAIL. -/
def c1Provider : Provider := fun t _ _ =>
  if t == "FAIL" then .error "boom" else .ok [sampleBar]

/-- A three-symbol config whose middle symbol is the raising one. -/
def c1Doc : ConfigDoc :=
  { symbols := some [{ symbol := "SPY", ticker := none },
      { symbol := "FAIL", ticker := none },
      { symbol := "ZZZ", ticker := none }],
    pairs := some [] }

/-- C1: when fetching or normalizing symbol X raises (X being the first
raising symbol), the run prints the error message naming X and the error
text as its final diagnostic line, terminates with a fetchFailure carrying
exit status 1, attempts no symbol after X (the loop's outcome is that of the
list truncated right after X, whatever the tail), leaves every path other
than X's own hourly CSV exactly as the symbols before X left it, and does
not write data/last_updated.txt. -/
theorem c1_fetch_error_aborts (doc : ConfigDoc) (provider : Provider)
    (now : Timestamp) (fs0 : String → Option String)
    (symbols pre post : List String) (tm : TickerMap) (pairs : List String)
    (X e : String)
    (hpa : doc.pairs = some pairs)
    (hres : get_symbols_from_config doc = .ok (symbols, tm))
    (hsplit : symbols = pre ++ X :: post)
    (hpre : ∀ s ∈ pre, symbolRaise provider tm s = none)
    (hX : symbolRaise provider tm X = some e) :
    (main (.parsed doc) provider now fs0).status = .fetchFailure X e
    ∧ exitCode (main (.parsed doc) provider now fs0).status = 1
    ∧ ("ERROR fetching " ++ X ++ ": " ++ e) ∈ (main (.parsed doc) provider now fs0).stderr
    ∧ (main (.parsed doc) provider now fs0).stderr.getLast?
        = some ("ERROR fetching " ++ X ++ ": " ++ e)
    ∧ (main (.parsed doc) provider now fs0).fs lastUpdatedPath = fs0 lastUpdatedPath
    ∧ (∀ tail2 : List String,
        mainLoop provider tm "data" (pre ++ X :: tail2) (initState symbols pairs fs0)
          = mainLoop provider tm "data" (pre ++ [X]) (initState symbols pairs fs0))
    ∧ (∀ q, q ≠ hourlyPath "data" X →
        (main (.parsed doc) provider now fs0).fs q
          = ((mainLoop provider tm "data" pre (initState symbols pairs fs0)).2).fs q) := by
  have hpreS : loopStatus provider tm pre = .success :=
    (loopStatus_success_iff provider tm pre).mpr hpre
  simp only [main, load_config, hres, hpa, hsplit]
  have happ := mainLoop_append provider tm "data" pre (X :: post)
    (initState (pre ++ X :: post) pairs fs0) hpreS
  rw [happ]
  obtain ⟨heq, hstat, ⟨mid, hstderr⟩, hfsX⟩ :=
    mainLoop_raise provider tm "data" X e hX post
      ((mainLoop provider tm "data" pre (initState (pre ++ X :: post) pairs fs0)).2)
  rw [heq]
  rcases hml : mainLoop provider tm "data" [X]
      ((mainLoop provider tm "data" pre (initState (pre ++ X :: post) pairs fs0)).2)
    with ⟨s1, st1⟩
  rw [hml] at hstat hstderr hfsX
  have hs1 : s1 = .fetchFailure X e := hstat
  subst hs1
  have hstderr2 : st1.stderr
      = ((mainLoop provider tm "data" pre (initState (pre ++ X :: post) pairs fs0)).2).stderr
        ++ ["Fetching " ++ X ++ "..."] ++ mid ++ [fetchErrorMsg X e] := hstderr
  have hfsX2 : ∀ q, q ≠ hourlyPath "data" X →
      st1.fs q
        = ((mainLoop provider tm "data" pre (initState (pre ++ X :: post) pairs fs0)).2).fs q :=
    hfsX
  refine ⟨rfl, rfl, ?_, ?_, ?_, ?_, ?_⟩
  · show ("ERROR fetching " ++ X ++ ": " ++ e) ∈ st1.stderr
    rw [hstderr2]
    simp [fetchErrorMsg]
  · show st1.stderr.getLast? = some ("ERROR fetching " ++ X ++ ": " ++ e)
    rw [hstderr2]
    rw [List.getLast?_append]
    simp [fetchErrorMsg]
  · show st1.fs lastUpdatedPath = fs0 lastUpdatedPath
    have hpath : lastUpdatedPath ≠ hourlyPath "data" X := Ne.symm (hourlyPath_ne_lastUpdated X)
    have h5a := hfsX2 lastUpdatedPath hpath
    have h5b := mainLoop_fs provider tm "data" pre
      (initState (pre ++ X :: post) pairs fs0) lastUpdatedPath
    rw [loopWrites_lastUpdated, Option.none_or] at h5b
    exact h5a.trans h5b
  · intro tail2
    have happT := mainLoop_append provider tm "data" pre (X :: tail2)
      (initState (pre ++ X :: post) pairs fs0) hpreS
    have happ1 := mainLoop_append provider tm "data" pre [X]
      (initState (pre ++ X :: post) pairs fs0) hpreS
    have hT := (mainLoop_raise provider tm "data" X e hX tail2
      ((mainLoop provider tm "data" pre (initState (pre ++ X :: post) pairs fs0)).2)).1
    rw [happT, happ1, hT]
  · intro q hq
    exact hfsX2 q hq

/-- C1 witness: the abort behaviour applied to a concrete three-symbol batch
whose middle symbol raises. -/
theorem c1_fetch_error_aborts_witness :
    symbolRaise c1Provider [] "FAIL" = some "boom"
    ∧ (∀ s ∈ ["SPY"], symbolRaise c1Provider [] s = none)
    ∧ (main (.parsed c1Doc) c1Provider
        { year := 2024, month := 1, day := 1, hour := 0, minute := 0, second := 0 }
        emptyFs).status = .fetchFailure "FAIL" "boom"
    ∧ (main (.parsed c1Doc) c1Provider
        { year := 2024, month := 1, day := 1, hour := 0, minute := 0, second := 0 }
        emptyFs).fs lastUpdatedPath = none := by
  have h := c1_fetch_error_aborts c1Doc c1Provider
    { year := 2024, month := 1, day := 1, hour := 0, minute := 0, second := 0 }
    emptyFs ["SPY", "FAIL", "ZZZ"] ["SPY"] ["ZZZ"] [] [] "FAIL" "boom"
    rfl rfl rfl (by decide) (by decide)
  exact ⟨by decide, by decide, h.1, h.2.2.2.2.1⟩


/-- A dict insert whose key is fresh appends the pair. -/
theorem dinsert_fresh (m : TickerMap) (k v : String)
    (h : ∀ kv ∈ m, kv.1 ≠ k) : dinsert m k v = m ++ [(k, v)] := by
  unfold dinsert
  rw [if_neg]
  simp only [List.any_eq_true, not_exists, not_and]
  intro kv hkv
  simp [h kv hkv]

/-- Looking a key up by `find?` in an association list with distinct keys
returns the member carrying it. -/
theorem find?_nodup_key (k v : String) :
    ∀ l : List (String × String), (l.map Prod.fst).Nodup → (k, v) ∈ l →
      l.find? (fun p => p.1 == k) = some (k, v) := by
  intro l
  induction l with
  | nil => intro _ hmem; cases hmem
  | cons a t ih =>
    intro hk hmem
    rcases List.mem_cons.mp hmem with h | h
    · rw [← h]
      simp [List.find?_cons]
    · have hne : a.1 ≠ k := by
        intro hcol
        have hmemk : k ∈ t.map Prod.fst := List.mem_map.mpr ⟨(k, v), h, rfl⟩
        rw [List.map_cons, List.nodup_cons] at hk
        exact hk.1 (hcol ▸ hmemk)
      rw [List.find?_cons]
      have hb : (a.1 == k) = false := by simp [hne]
      rw [hb]
      exact ih (by rw [List.map_cons, List.nodup_cons] at hk; exact hk.2) h

/-- How the fold inside `get_symbols_from_config` acts on an accumulator
whose map keys avoid the remaining entries: it appends the entries' symbols
and the differing-override pairs. -/
theorem resolve_foldl (entries : List ConfigEntry) :
    ∀ (sy : List String) (m : TickerMap),
      (∀ kv ∈ m, ∀ e2 ∈ entries, kv.1 ≠ e2.symbol) →
      (entries.map ConfigEntry.symbol).Nodup →
      entries.foldl
        (fun acc entry =>
          (acc.1 ++ [entry.symbol],
           if resolvedTicker entry ≠ entry.symbol
           then dinsert acc.2 entry.symbol (resolvedTicker entry)
           else acc.2))
        (sy, m)
      = (sy ++ entries.map ConfigEntry.symbol,
         m ++ (entries.filter fun e2 => resolvedTicker e2 != e2.symbol).map
           (fun e2 => (e2.symbol, resolvedTicker e2))) := by
  induction entries with
  | nil =>
    intro sy m _ _
    simp
  | cons a rest ih =>
    intro sy m hkv hnd
    rw [List.map_cons, List.nodup_cons] at hnd
    simp only [List.foldl_cons]
    by_cases ha : resolvedTicker a = a.symbol
    · rw [if_neg (fun hc => hc ha)]
      rw [ih (sy ++ [a.symbol]) m
        (fun kv hkv2 e2 he2 => hkv kv hkv2 e2 (List.mem_cons_of_mem a he2)) hnd.2]
      have hfa : (resolvedTicker a != a.symbol) = false := by
        simp [ha]
      rw [List.filter_cons, hfa]
      simp
    · rw [if_pos ha]
      rw [dinsert_fresh m a.symbol (resolvedTicker a)
        (fun kv hkv2 => hkv kv hkv2 a (List.mem_cons_self a rest))]
      rw [ih (sy ++ [a.symbol]) (m ++ [(a.symbol, resolvedTicker a)]) ?hfresh hnd.2]
      case hfresh =>
        intro kv hkv2 e2 he2
        rcases List.mem_append.mp hkv2 with hin | hin
        · exact hkv kv hin e2 (List.mem_cons_of_mem a he2)
        · have hkva : kv = (a.symbol, resolvedTicker a) := by simpa using hin
          rw [hkva]
          intro hcol
          have hcol2 : a.symbol = e2.symbol := hcol
          exact hnd.1 (by rw [hcol2]; exact List.mem_map.mpr ⟨e2, he2, rfl⟩)
      have hta : (resolvedTicker a != a.symbol) = true := bne_iff_ne.mpr ha
      rw [List.filter_cons, hta]
      simp

/-- C6: the symbol resolver returns the symbols in configuration order and a
ticker map holding exactly the entries whose override differs from the
symbol; under the expected symbol uniqueness, every ticker lookup (as the
fetchers perform it) resolves to the configured override when present and
non-identical to the symbol, else to the symbol itself. -/
theorem c6_symbol_resolver (doc : ConfigDoc) (entries : List ConfigEntry)
    (symbols : List String) (tm : TickerMap)
    (hsy : doc.symbols = some entries)
    (hnd : (entries.map ConfigEntry.symbol).Nodup)
    (hres : get_symbols_from_config doc = .ok (symbols, tm)) :
    symbols = entries.map ConfigEntry.symbol
    ∧ tm = (entries.filter fun e2 => resolvedTicker e2 != e2.symbol).map
        (fun e2 => (e2.symbol, resolvedTicker e2))
    ∧ ∀ e2 ∈ entries, dget tm e2.symbol e2.symbol = resolvedTicker e2 := by
  simp only [get_symbols_from_config, hsy] at hres
  rw [resolve_foldl entries [] [] (by simp) hnd] at hres
  simp only [List.nil_append, Except.ok.injEq, Prod.mk.injEq] at hres
  obtain ⟨h1, h2⟩ := hres
  refine ⟨h1.symm, h2.symm, ?_⟩
  intro e2 he2
  rw [← h2]
  by_cases hp : resolvedTicker e2 = e2.symbol
  · rw [dget, List.find?_eq_none.mpr ?hnone]
    · exact hp.symm
    case hnone =>
      intro x hx
      rcases List.mem_map.mp hx with ⟨e3, he3, hxe⟩
      rw [← hxe]
      simp only [beq_iff_eq]
      intro hcol
      have he3also := (List.mem_filter.mp he3).1
      have : e3 = e2 := List.inj_on_of_nodup_map hnd he3also he2 hcol
      rw [this] at he3
      have := (List.mem_filter.mp he3).2
      rw [bne_iff_ne] at this
      exact this hp
  · have hmem : (e2.symbol, resolvedTicker e2)
        ∈ (entries.filter fun e3 => resolvedTicker e3 != e3.symbol).map
          (fun e3 => (e3.symbol, resolvedTicker e3)) :=
      List.mem_map.mpr ⟨e2, List.mem_filter.mpr ⟨he2, bne_iff_ne.mpr hp⟩, rfl⟩
    have hkeys : (((entries.filter fun e3 => resolvedTicker e3 != e3.symbol).map
        (fun e3 => (e3.symbol, resolvedTicker e3))).map Prod.fst).Nodup := by
      rw [List.map_map]
      have hsub : ((entries.filter fun e3 => resolvedTicker e3 != e3.symbol).map
          (Prod.fst ∘ fun e3 => (e3.symbol, resolvedTicker e3))).Sublist
            (entries.map ConfigEntry.symbol) :=
        List.Sublist.map _ (List.filter_sublist entries)
      exact hsub.nodup hnd
    rw [dget, find?_nodup_key e2.symbol (resolvedTicker e2) _ hkeys hmem]

/-- C6 witness: the resolver applied to the spec's end-to-end scenario
config: symbol order SPY, BTC; ticker map holding only BTC; lookups
resolving BTC to BTC-USD and SPY to itself. -/
theorem c6_symbol_resolver_witness :
    sampleDoc.symbols = some [{ symbol := "SPY", ticker := none },
      { symbol := "BTC", ticker := some "BTC-USD" }]
    ∧ get_symbols_from_config sampleDoc = .ok (["SPY", "BTC"], [("BTC", "BTC-USD")])
    ∧ ["SPY", "BTC"] = [{ symbol := "SPY", ticker := none },
        { symbol := "BTC", ticker := some "BTC-USD" }].map ConfigEntry.symbol
    ∧ dget [("BTC", "BTC-USD")] "BTC" "BTC" = "BTC-USD"
    ∧ dget [("BTC", "BTC-USD")] "SPY" "SPY" = "SPY" := by
  have h := c6_symbol_resolver sampleDoc
    [{ symbol := "SPY", ticker := none }, { symbol := "BTC", ticker := some "BTC-USD" }]
    ["SPY", "BTC"] [("BTC", "BTC-USD")] rfl (by decide) rfl
  refine ⟨rfl, rfl, h.1, ?_, ?_⟩
  · exact h.2.2 { symbol := "BTC", ticker := some "BTC-USD" } (by simp)
  · exact h.2.2 { symbol := "SPY", ticker := none } (by simp)

end FetchData
